import Mathlib

/-!
Shallow embedding of the geofence monitoring engine of the georem repository
(GeofenceManager in the expo service module, GeofenceSetupUtil and the
environment configuration), together with theorems settling the claims about
its transition detection, registry and distance computation.
-/

namespace Georem

noncomputable section

open Real

/-! ## Definitions: distance calculator -/

/-- Real counterpart of the JavaScript Math.atan2 function (signed zeros and
NaN inputs aside): quadrant-correcting arctangent of y/x. -/
def atan2 (y x : ℝ) : ℝ :=
  if 0 < x then arctan (y / x)
  else if x < 0 ∧ 0 ≤ y then arctan (y / x) + π
  else if x < 0 ∧ y < 0 then arctan (y / x) - π
  else if x = 0 ∧ 0 < y then π / 2
  else if x = 0 ∧ y < 0 then -(π / 2)
  else 0

/-- GeofenceManager.toRadians: degree to radian conversion. -/
def toRadians (degrees : ℝ) : ℝ := degrees * (π / 180)

/-- The intermediate value a computed inside GeofenceManager.calculateDistance:
sin(dLat/2)·sin(dLat/2) + cos(lat1)·cos(lat2)·sin(dLon/2)·sin(dLon/2),
with all angles converted to radians. -/
def haversineA (lat1 lon1 lat2 lon2 : ℝ) : ℝ :=
  Real.sin (toRadians (lat2 - lat1) / 2) * Real.sin (toRadians (lat2 - lat1) / 2) +
    Real.cos (toRadians lat1) * Real.cos (toRadians lat2) *
      Real.sin (toRadians (lon2 - lon1) / 2) * Real.sin (toRadians (lon2 - lon1) / 2)

/-- GeofenceManager.calculateDistance: haversine distance in meters on a
sphere of radius 6371000 m, computed as R * c with
c = 2 * atan2(sqrt a, sqrt (1 - a)). -/
def calculateDistance (lat1 lon1 lat2 lon2 : ℝ) : ℝ :=
  6371000 *
    (2 * atan2 (Real.sqrt (haversineA lat1 lon1 lat2 lon2))
      (Real.sqrt (1 - haversineA lat1 lon1 lat2 lon2)))

/-- Distance formula in the exact shape the specification writes it,
2·R·atan2(√a, √(1−a)); a second definition following the wording of the
specification, to be compared with calculateDistance taken from the source. -/
def haversineSpecForm (lat1 lon1 lat2 lon2 : ℝ) : ℝ :=
  2 * 6371000 *
    atan2 (Real.sqrt (haversineA lat1 lon1 lat2 lon2))
      (Real.sqrt (1 - haversineA lat1 lon1 lat2 lon2))

/-! ## Definitions: data model of the geofence engine -/

/-- Transition type of a geofence crossing, the ENTER and EXIT strings of the
source. -/
inductive TransitionType
  | ENTER
  | EXIT
deriving DecidableEq

/-- GeofenceRecord as built by GeofenceManager.addGeofence and mutated by
checkGeofences and handleGeofenceTransition. Fields that JavaScript leaves
undefined until first written (wasInside, lastTransitionType, lastChecked,
lastTriggered) are Options. -/
structure GeofenceData where
  id : String
  reminderId : Nat
  latitude : ℝ
  longitude : ℝ
  radius : ℝ
  title : String
  isActive : Bool
  createdAt : String
  triggeredCount : Nat
  lastTriggered : Option String
  transitionType : String
  lastTransitionType : Option TransitionType
  wasInside : Option Bool
  lastChecked : Option String

/-- Location sample handed to checkGeofences (latitude, longitude, ISO
timestamp string). -/
structure LocationSample where
  latitude : ℝ
  longitude : ℝ
  timestamp : String

/-- Ephemeral transition event produced when checkGeofences detects a
containment change. -/
structure TransitionEvent where
  geofenceId : String
  etype : TransitionType
  occurredAt : String
deriving DecidableEq

/-- Result of one evaluation pass of checkGeofences over the registry:
the updated records, the detected transition events, the registry snapshots
serialized to storage by each transition handler (captured at the moment
JSON.stringify runs, before the detector writes wasInside back), and the
notification attempts with their delivery outcome. -/
structure CheckResult where
  records : List GeofenceData
  events : List TransitionEvent
  snapshots : List (List GeofenceData)
  notified : List (String × Bool)

/-- The containment test computed inside checkGeofences:
distance from the sample to the geofence center compared to the radius. -/
def isInsideB (loc : LocationSample) (g : GeofenceData) : Bool :=
  decide (calculateDistance loc.latitude loc.longitude g.latitude g.longitude ≤ g.radius)

/-- Synchronous record mutation performed by handleGeofenceTransition before
it persists: increments triggeredCount, sets lastTriggered and
lastTransitionType. -/
def applyTransition (g : GeofenceData) (t : TransitionType) (loc : LocationSample) :
    GeofenceData :=
  { g with
    triggeredCount := g.triggeredCount + 1
    lastTriggered := some loc.timestamp
    lastTransitionType := some t }

/-- The per-record effect of one checkGeofences iteration: the transition
mutation when a containment change is detected, then the unconditional
write-back of wasInside and lastChecked. -/
def updateRecord (loc : LocationSample) (g : GeofenceData) : GeofenceData :=
  { (if isInsideB loc g && !(g.wasInside.getD false) then applyTransition g .ENTER loc
     else if !(isInsideB loc g) && (g.wasInside.getD false) then applyTransition g .EXIT loc
     else g) with
    wasInside := some (isInsideB loc g)
    lastChecked := some loc.timestamp }

/-- The transition event (if any) that one checkGeofences iteration emits for
a record. -/
def eventFor (loc : LocationSample) (g : GeofenceData) : Option TransitionEvent :=
  if isInsideB loc g && !(g.wasInside.getD false) then
    some ⟨g.id, .ENTER, loc.timestamp⟩
  else if !(isInsideB loc g) && (g.wasInside.getD false) then
    some ⟨g.id, .EXIT, loc.timestamp⟩
  else none

/-- Iteration of checkGeofences over the registry entries in map order.
done holds the already-processed records in reverse order; on a transition the
handler captures a snapshot of the whole registry as it stands at that moment
(processed records fully updated, current record with the transition mutation
but the old wasInside, remaining records untouched), which is what
JSON.stringify serializes inside saveGeofencesToStorage. notifyOk gives the
delivery outcome of the notification attempted for a transitioned record. -/
def checkAux (notifyOk : String → Bool) (loc : LocationSample) :
    List GeofenceData → List GeofenceData → CheckResult
  | done, [] => ⟨done.reverse, [], [], []⟩
  | done, g :: rest =>
    if isInsideB loc g && !(g.wasInside.getD false) then
      let g1 := applyTransition g .ENTER loc
      let snap := done.reverse ++ g1 :: rest
      let g2 := { g1 with wasInside := some (isInsideB loc g), lastChecked := some loc.timestamp }
      let r := checkAux notifyOk loc (g2 :: done) rest
      ⟨r.records, ⟨g.id, .ENTER, loc.timestamp⟩ :: r.events, snap :: r.snapshots,
        (g.id, notifyOk g.id) :: r.notified⟩
    else if !(isInsideB loc g) && (g.wasInside.getD false) then
      let g1 := applyTransition g .EXIT loc
      let snap := done.reverse ++ g1 :: rest
      let g2 := { g1 with wasInside := some (isInsideB loc g), lastChecked := some loc.timestamp }
      let r := checkAux notifyOk loc (g2 :: done) rest
      ⟨r.records, ⟨g.id, .EXIT, loc.timestamp⟩ :: r.events, snap :: r.snapshots,
        (g.id, notifyOk g.id) :: r.notified⟩
    else
      let g2 := { g with wasInside := some (isInsideB loc g), lastChecked := some loc.timestamp }
      checkAux notifyOk loc (g2 :: done) rest

/-- GeofenceManager.checkGeofences: evaluate one location sample against every
record of the activeGeofences map. -/
def checkGeofences (notifyOk : String → Bool) (records : List GeofenceData)
    (loc : LocationSample) : CheckResult :=
  checkAux notifyOk loc [] records

/-! ## Definitions: registry operations -/

/-- Reminder as consumed by addGeofence: id, title and the locationData
coordinates with an optional radius (an absent or zero radius is falsy in the
source and falls back to 100). -/
structure Reminder where
  id : Nat
  title : String
  latitude : ℝ
  longitude : ℝ
  radius : Option ℝ

/-- The JavaScript expression reminder.locationData.radius || 100. -/
def radiusOrDefault (r : Option ℝ) : ℝ :=
  match r with
  | none => 100
  | some x => if x = 0 then 100 else x

/-- The geofenceData object built by GeofenceManager.addGeofence; wasInside is
left undefined. now stands for new Date().toISOString(). -/
def makeGeofenceData (reminder : Reminder) (now : String) : GeofenceData :=
  { id := "geofence_" ++ toString reminder.id
    reminderId := reminder.id
    latitude := reminder.latitude
    longitude := reminder.longitude
    radius := radiusOrDefault reminder.radius
    title := reminder.title
    isActive := true
    createdAt := now
    triggeredCount := 0
    lastTriggered := none
    transitionType := "ENTER"
    lastTransitionType := none
    wasInside := none
    lastChecked := none }

/-- JavaScript Map.set on the activeGeofences map: replace in place when the
key exists, append otherwise. -/
def mapSet (l : List GeofenceData) (g : GeofenceData) : List GeofenceData :=
  if l.any (fun x => x.id == g.id) then
    l.map (fun x => if x.id == g.id then g else x)
  else l ++ [g]

/-- In-memory state of the GeofenceManager singleton: the activeGeofences map
in insertion order and the isMonitoring flag. -/
structure ManagerState where
  activeGeofences : List GeofenceData
  isMonitoring : Bool

/-- GeofenceManager.saveGeofencesToStorage: serialize the registry to the
activeGeofences storage key. A write failure is caught and logged inside the
function itself, leaving the previous stored value in place and reporting
nothing to the caller. -/
def saveGeofencesToStorage (storageOk : Bool) (fences : List GeofenceData)
    (storage : Option (List GeofenceData)) : Option (List GeofenceData) :=
  if storageOk then some fences else storage

/-- GeofenceManager.startMonitoring's effect on the isMonitoring flag: a
no-op when monitoring already runs; otherwise the flag is set to true, and the
catch block resets it to false when the platform subscription setup throws
(startOk tells whether the platform calls succeed). -/
def startMonitoring (isMonitoring startOk : Bool) : Bool :=
  if isMonitoring then isMonitoring
  else if startOk then true else false

/-- GeofenceManager.stopMonitoring's effect on the isMonitoring flag: a no-op
when monitoring is off; otherwise the flag is cleared only after the platform
teardown awaits succeed — when they throw, the catch block logs and the flag
stays true (stopOk tells whether the platform calls succeed). -/
def stopMonitoring (isMonitoring stopOk : Bool) : Bool :=
  if !isMonitoring then isMonitoring
  else if stopOk then false else isMonitoring

/-- Outcome of addGeofence: the resulting in-memory state, the resulting
stored value, and what the call returns to its caller. -/
structure AddResult where
  state : ManagerState
  storage : Option (List GeofenceData)
  returned : Except String GeofenceData

/-- GeofenceManager.addGeofence: build the geofenceData record, put it into
the activeGeofences map, persist best-effort, and call startMonitoring when
monitoring is not already running. storageOk tells whether the persistence
write succeeds and startOk whether the platform location calls inside
startMonitoring succeed; either way the function returns the record. -/
def addGeofence (st : ManagerState) (storage : Option (List GeofenceData))
    (reminder : Reminder) (now : String) (storageOk startOk : Bool) : AddResult :=
  let g := makeGeofenceData reminder now
  let fences := mapSet st.activeGeofences g
  let storage1 := saveGeofencesToStorage storageOk fences storage
  let monitoring := if st.isMonitoring then st.isMonitoring
    else startMonitoring st.isMonitoring startOk
  ⟨⟨fences, monitoring⟩, storage1, Except.ok g⟩

/-- Outcome of removeGeofence. -/
structure RemoveResult where
  state : ManagerState
  storage : Option (List GeofenceData)
  returned : Bool

/-- GeofenceManager.removeGeofence: when the geofence for the reminder id is
present, delete it from the map, persist best-effort, and call stopMonitoring
when the map became empty (stopOk tells whether the platform teardown calls
inside stopMonitoring succeed); return whether a geofence was removed. -/
def removeGeofence (st : ManagerState) (storage : Option (List GeofenceData))
    (reminderId : Nat) (storageOk stopOk : Bool) : RemoveResult :=
  let gid := "geofence_" ++ toString reminderId
  if st.activeGeofences.any (fun g => g.id == gid) then
    let fences := st.activeGeofences.filter (fun g => !(g.id == gid))
    let storage1 := saveGeofencesToStorage storageOk fences storage
    let monitoring := if fences.isEmpty then stopMonitoring st.isMonitoring stopOk
      else st.isMonitoring
    ⟨⟨fences, monitoring⟩, storage1, true⟩
  else ⟨st, storage, false⟩

/-! ## Definitions: configuration and setup utility -/

/-- Default minRadius of GEOFENCE_CONFIG in the environment configuration. -/
def GEOFENCE_CONFIG_minRadius : ℝ := 100

/-- Default maxRadius of GEOFENCE_CONFIG in the environment configuration. -/
def GEOFENCE_CONFIG_maxRadius : ℝ := 1000

/-- The radius GeofenceSetupUtil.setupGeofence actually registers:
Math.max(radius, GEOFENCE_CONFIG.minRadius). -/
def setupGeofenceRadius (radius : ℝ) : ℝ := max radius GEOFENCE_CONFIG_minRadius

/-! ## Definitions: background evaluation paths -/

/-- JavaScript runtime error surfaced by the shallow embedding of dynamic
method lookup on a receiver object. -/
inductive JSError
  | typeError (message : String)
deriving DecidableEq

/-- checkGeofences as invoked through Function.prototype.call with an explicit
receiver: the receiver carries the activeGeofences entries plus flags telling
whether the class methods calculateDistance and handleGeofenceTransition are
present on it. A missing method raises a TypeError at its call site, aborting
the iteration. -/
def checkGeofencesCall (hasCalculateDistance hasHandleTransition : Bool)
    (notifyOk : String → Bool) (loc : LocationSample) :
    List GeofenceData → List GeofenceData → Except JSError CheckResult
  | done, [] => .ok ⟨done.reverse, [], [], []⟩
  | done, g :: rest =>
    if !hasCalculateDistance then
      .error (.typeError "this.calculateDistance is not a function")
    else if isInsideB loc g && !(g.wasInside.getD false) then
      if !hasHandleTransition then
        .error (.typeError "this.handleGeofenceTransition is not a function")
      else
        let g1 := applyTransition g .ENTER loc
        let snap := done.reverse ++ g1 :: rest
        let g2 := { g1 with wasInside := some (isInsideB loc g), lastChecked := some loc.timestamp }
        match checkGeofencesCall hasCalculateDistance hasHandleTransition notifyOk loc
            (g2 :: done) rest with
        | .error e => .error e
        | .ok r =>
          .ok ⟨r.records, ⟨g.id, .ENTER, loc.timestamp⟩ :: r.events, snap :: r.snapshots,
            (g.id, notifyOk g.id) :: r.notified⟩
    else if !(isInsideB loc g) && (g.wasInside.getD false) then
      if !hasHandleTransition then
        .error (.typeError "this.handleGeofenceTransition is not a function")
      else
        let g1 := applyTransition g .EXIT loc
        let snap := done.reverse ++ g1 :: rest
        let g2 := { g1 with wasInside := some (isInsideB loc g), lastChecked := some loc.timestamp }
        match checkGeofencesCall hasCalculateDistance hasHandleTransition notifyOk loc
            (g2 :: done) rest with
        | .error e => .error e
        | .ok r =>
          .ok ⟨r.records, ⟨g.id, .EXIT, loc.timestamp⟩ :: r.events, snap :: r.snapshots,
            (g.id, notifyOk g.id) :: r.notified⟩
    else
      let g2 := { g with wasInside := some (isInsideB loc g), lastChecked := some loc.timestamp }
      checkGeofencesCall hasCalculateDistance hasHandleTransition notifyOk loc (g2 :: done) rest

/-- Observable outcome of one background evaluation: transition events
detected, storage snapshots written, notification attempts, and the error the
surrounding catch block swallowed (if any). -/
structure BackgroundOutcome where
  events : List TransitionEvent
  storageWrites : List (List GeofenceData)
  notified : List (String × Bool)
  errorLogged : Option JSError

/-- GeofenceManager.handleBackgroundLocationUpdate: load the stored geofences
and, when present, evaluate the sample through
GeofenceManager.prototype.checkGeofences.call with the plain object receiver
containing only activeGeofences, so neither class method is present on it; any
thrown error is caught and logged. -/
def handleBackgroundLocationUpdate (stored : Option (List GeofenceData))
    (notifyOk : String → Bool) (loc : LocationSample) : BackgroundOutcome :=
  match stored with
  | none => ⟨[], [], [], none⟩
  | some arr =>
    match checkGeofencesCall false false notifyOk loc [] arr with
    | .error e => ⟨[], [], [], some e⟩
    | .ok r => ⟨r.events, r.snapshots, r.notified, none⟩

/-- GeofenceManager.performBackgroundGeofenceCheck: fetch one location reading
(passed here as loc), load the stored geofences and evaluate them through the
same plain-object-receiver call as the background location handler. -/
def performBackgroundGeofenceCheck (stored : Option (List GeofenceData))
    (notifyOk : String → Bool) (loc : LocationSample) : BackgroundOutcome :=
  match stored with
  | none => ⟨[], [], [], none⟩
  | some arr =>
    match checkGeofencesCall false false notifyOk loc [] arr with
    | .error e => ⟨[], [], [], some e⟩
    | .ok r => ⟨r.events, r.snapshots, r.notified, none⟩

/-! ## Definitions: concrete instances used by witnesses and counterexamples -/

/-- A concrete geofence record used to instantiate the claim theorems. -/
def gWitness : GeofenceData :=
  { id := "geofence_7", reminderId := 7, latitude := 0, longitude := 0, radius := 100,
    title := "home", isActive := true, createdAt := "t0", triggeredCount := 0,
    lastTriggered := none, transitionType := "ENTER", lastTransitionType := none,
    wasInside := some false, lastChecked := none }

/-- A concrete location sample at the origin. -/
def locWitness : LocationSample := ⟨0, 0, "t1"⟩

/-- A geofence of radius zero centered at the origin, so the origin sample
sits exactly on the boundary. -/
def gBoundary : GeofenceData :=
  { id := "geofence_9", reminderId := 9, latitude := 0, longitude := 0, radius := 0,
    title := "boundary", isActive := true, createdAt := "t0", triggeredCount := 0,
    lastTriggered := none, transitionType := "ENTER", lastTransitionType := none,
    wasInside := some false, lastChecked := none }

/-- A concrete geofence record already tracked as inside (wasInside true),
used to exercise the EXIT transition. -/
def gSeeded : GeofenceData :=
  { id := "geofence_8", reminderId := 8, latitude := 0, longitude := 0, radius := 100,
    title := "work", isActive := true, createdAt := "t0", triggeredCount := 2,
    lastTriggered := some "t0", transitionType := "ENTER",
    lastTransitionType := some .ENTER, wasInside := some true, lastChecked := some "t0" }

/-- A concrete location sample on the equator at the 180 degree meridian,
antipodal to the origin. -/
def locFar : LocationSample := ⟨0, 180, "t2"⟩

/-- A concrete reminder whose creation point is its own geofence center. -/
def cexReminder : Reminder := ⟨1, "home", 0, 0, some 100⟩

/-- A concrete reminder requesting a radius far above the configured maximum. -/
def bigReminder : Reminder := ⟨2, "big", 0, 0, some 5000⟩

/-! ## Lemmas: distance calculator -/

lemma atan2_nonneg {y x : ℝ} (hy : 0 ≤ y) (hx : 0 ≤ x) : 0 ≤ atan2 y x := by
  unfold atan2
  split_ifs with h1 h2 h3 h4 h5
  · have hq : 0 ≤ y / x := div_nonneg hy (le_of_lt h1)
    have := Real.arctan_strictMono.monotone hq
    rwa [Real.arctan_zero] at this
  · exact absurd h2.1 (not_lt.mpr hx)
  · exact absurd h3.1 (not_lt.mpr hx)
  · linarith [Real.pi_pos]
  · exact absurd h5.2 (not_lt.mpr hy)
  · exact le_refl 0

lemma calculateDistance_nonneg (lat1 lon1 lat2 lon2 : ℝ) :
    0 ≤ calculateDistance lat1 lon1 lat2 lon2 := by
  unfold calculateDistance
  have h := atan2_nonneg (Real.sqrt_nonneg (haversineA lat1 lon1 lat2 lon2))
    (Real.sqrt_nonneg (1 - haversineA lat1 lon1 lat2 lon2))
  nlinarith

lemma calculateDistance_self (lat lon : ℝ) : calculateDistance lat lon lat lon = 0 := by
  have ha : haversineA lat lon lat lon = 0 := by
    unfold haversineA toRadians
    norm_num
  unfold calculateDistance atan2
  rw [ha]
  norm_num [Real.sqrt_one]

lemma haversineA_far : haversineA 0 180 0 0 = 1 := by
  unfold haversineA toRadians
  rw [show ((0:ℝ) - 0) * (π / 180) / 2 = 0 by ring,
    show ((0:ℝ) - 180) * (π / 180) / 2 = -(π / 2) by ring,
    show ((0:ℝ)) * (π / 180) = 0 by ring,
    Real.sin_zero, Real.cos_zero, Real.sin_neg, Real.sin_pi_div_two]
  ring

lemma calculateDistance_far : calculateDistance 0 180 0 0 = 6371000 * π := by
  unfold calculateDistance
  rw [haversineA_far, show (1:ℝ) - 1 = 0 by norm_num, Real.sqrt_zero, Real.sqrt_one]
  have c1 : ¬ (0:ℝ) < 0 := lt_irrefl 0
  have c2 : ¬ ((0:ℝ) < 0 ∧ (0:ℝ) ≤ 1) := fun h => c1 h.1
  have c3 : ¬ ((0:ℝ) < 0 ∧ (1:ℝ) < 0) := fun h => c1 h.1
  have c4 : (0:ℝ) = 0 ∧ (0:ℝ) < 1 := ⟨rfl, by norm_num⟩
  unfold atan2
  rw [if_neg c1, if_neg c2, if_neg c3, if_pos c4]
  ring

lemma haversineA_nonneg {lat1 lat2 : ℝ} (lon1 lon2 : ℝ)
    (h1 : |lat1| ≤ 90) (h2 : |lat2| ≤ 90) :
    0 ≤ haversineA lat1 lon1 lat2 lon2 := by
  obtain ⟨h1l, h1r⟩ := abs_le.mp h1
  obtain ⟨h2l, h2r⟩ := abs_le.mp h2
  have hpi : (0:ℝ) < π / 180 := by positivity
  have hc1 : 0 ≤ Real.cos (toRadians lat1) := by
    apply Real.cos_nonneg_of_mem_Icc
    constructor
    · unfold toRadians; nlinarith
    · unfold toRadians; nlinarith
  have hc2 : 0 ≤ Real.cos (toRadians lat2) := by
    apply Real.cos_nonneg_of_mem_Icc
    constructor
    · unfold toRadians; nlinarith
    · unfold toRadians; nlinarith
  have hs1 := mul_self_nonneg (Real.sin (toRadians (lat2 - lat1) / 2))
  have hs2 := mul_self_nonneg (Real.sin (toRadians (lon2 - lon1) / 2))
  have hprod : 0 ≤ Real.cos (toRadians lat1) * Real.cos (toRadians lat2) *
      (Real.sin (toRadians (lon2 - lon1) / 2) * Real.sin (toRadians (lon2 - lon1) / 2)) :=
    mul_nonneg (mul_nonneg hc1 hc2) hs2
  unfold haversineA
  nlinarith

lemma haversineA_le_one {lat1 lat2 : ℝ} (lon1 lon2 : ℝ)
    (h1 : |lat1| ≤ 90) (h2 : |lat2| ≤ 90) :
    haversineA lat1 lon1 lat2 lon2 ≤ 1 := by
  obtain ⟨h1l, h1r⟩ := abs_le.mp h1
  obtain ⟨h2l, h2r⟩ := abs_le.mp h2
  have hpi : (0:ℝ) < π / 180 := by positivity
  have hc1 : 0 ≤ Real.cos (toRadians lat1) := by
    apply Real.cos_nonneg_of_mem_Icc
    constructor
    · unfold toRadians; nlinarith
    · unfold toRadians; nlinarith
  have hc2 : 0 ≤ Real.cos (toRadians lat2) := by
    apply Real.cos_nonneg_of_mem_Icc
    constructor
    · unfold toRadians; nlinarith
    · unfold toRadians; nlinarith
  set x := toRadians lat1 with hx
  set y := toRadians lat2 with hy
  have hdl : toRadians (lat2 - lat1) = y - x := by
    rw [hx, hy]; unfold toRadians; ring
  have hhalf : Real.sin ((y - x) / 2) * Real.sin ((y - x) / 2) =
      1 / 2 - Real.cos (y - x) / 2 := by
    have h := Real.sin_sq_eq_half_sub ((y - x) / 2)
    have h2x : 2 * ((y - x) / 2) = y - x := by ring
    rw [h2x] at h
    nlinarith [h]
  have hcsub : Real.cos (y - x) = Real.cos y * Real.cos x + Real.sin y * Real.sin x :=
    Real.cos_sub y x
  have hcadd : Real.cos (x + y) = Real.cos x * Real.cos y - Real.sin x * Real.sin y :=
    Real.cos_add x y
  have hle : Real.cos (x + y) ≤ 1 := Real.cos_le_one (x + y)
  have hsz : Real.sin (toRadians (lon2 - lon1) / 2) * Real.sin (toRadians (lon2 - lon1) / 2) ≤ 1 := by
    nlinarith [Real.sin_le_one (toRadians (lon2 - lon1) / 2),
      Real.neg_one_le_sin (toRadians (lon2 - lon1) / 2)]
  have hszn := mul_self_nonneg (Real.sin (toRadians (lon2 - lon1) / 2))
  have hcc : 0 ≤ Real.cos x * Real.cos y := mul_nonneg hc1 hc2
  unfold haversineA
  rw [hdl]
  nlinarith [mul_nonneg hcc (sub_nonneg.mpr hsz)]

/-! ## Lemmas: transition detector structure -/

lemma updateRecord_wasInside (loc : LocationSample) (g : GeofenceData) :
    (updateRecord loc g).wasInside = some (isInsideB loc g) := rfl

lemma updateRecord_latitude (loc : LocationSample) (g : GeofenceData) :
    (updateRecord loc g).latitude = g.latitude := by
  unfold updateRecord applyTransition
  split_ifs <;> rfl

lemma updateRecord_longitude (loc : LocationSample) (g : GeofenceData) :
    (updateRecord loc g).longitude = g.longitude := by
  unfold updateRecord applyTransition
  split_ifs <;> rfl

lemma updateRecord_radius (loc : LocationSample) (g : GeofenceData) :
    (updateRecord loc g).radius = g.radius := by
  unfold updateRecord applyTransition
  split_ifs <;> rfl

lemma updateRecord_triggeredCount (loc : LocationSample) (g : GeofenceData) :
    g.triggeredCount ≤ (updateRecord loc g).triggeredCount := by
  unfold updateRecord applyTransition
  split_ifs <;> simp

lemma isInsideB_updateRecord (loc loc' : LocationSample) (g : GeofenceData) :
    isInsideB loc' (updateRecord loc g) = isInsideB loc' g := by
  simp only [isInsideB, updateRecord_latitude, updateRecord_longitude, updateRecord_radius]

lemma eventFor_updateRecord (loc : LocationSample) (g : GeofenceData) :
    eventFor loc (updateRecord loc g) = none := by
  unfold eventFor
  rw [isInsideB_updateRecord, updateRecord_wasInside]
  cases isInsideB loc g <;> simp

lemma checkAux_records (f : String → Bool) (loc : LocationSample) (rest : List GeofenceData) :
    ∀ done, (checkAux f loc done rest).records = done.reverse ++ rest.map (updateRecord loc) := by
  induction rest with
  | nil => intro done; simp [checkAux]
  | cons g rest ih =>
    intro done
    have hrec : ∀ x : GeofenceData,
        (checkAux f loc (x :: done) rest).records =
          done.reverse ++ x :: rest.map (updateRecord loc) := by
      intro x
      rw [ih]
      simp
    cases hIn : isInsideB loc g <;> cases hWas : g.wasInside.getD false <;>
      simp [checkAux, hIn, hWas, hrec, updateRecord, applyTransition]

lemma checkAux_events (f : String → Bool) (loc : LocationSample) (rest : List GeofenceData) :
    ∀ done, (checkAux f loc done rest).events = rest.filterMap (eventFor loc) := by
  induction rest with
  | nil => intro done; simp [checkAux]
  | cons g rest ih =>
    intro done
    cases hIn : isInsideB loc g <;> cases hWas : g.wasInside.getD false <;>
      simp [checkAux, hIn, hWas, ih, eventFor]

lemma checkGeofences_records (f : String → Bool) (records : List GeofenceData)
    (loc : LocationSample) :
    (checkGeofences f records loc).records = records.map (updateRecord loc) := by
  unfold checkGeofences
  rw [checkAux_records]
  simp

lemma checkGeofences_events (f : String → Bool) (records : List GeofenceData)
    (loc : LocationSample) :
    (checkGeofences f records loc).events = records.filterMap (eventFor loc) := by
  unfold checkGeofences
  rw [checkAux_events]

lemma mem_events_iff (loc : LocationSample) {records : List GeofenceData}
    (hnd : (records.map GeofenceData.id).Nodup) {g : GeofenceData} (hg : g ∈ records)
    (t : TransitionType) :
    (⟨g.id, t, loc.timestamp⟩ : TransitionEvent) ∈ records.filterMap (eventFor loc) ↔
      eventFor loc g = some ⟨g.id, t, loc.timestamp⟩ := by
  constructor
  · intro h
    rcases List.mem_filterMap.mp h with ⟨a, ha, hfa⟩
    have haid : a.id = g.id := by
      unfold eventFor at hfa
      split_ifs at hfa <;> simp_all
    have hag : a = g := List.inj_on_of_nodup_map hnd ha hg haid
    rwa [hag] at hfa
  · intro h
    exact List.mem_filterMap.mpr ⟨g, hg, h⟩

lemma eventFor_eq_enter_iff (loc : LocationSample) (g : GeofenceData) :
    eventFor loc g = some ⟨g.id, .ENTER, loc.timestamp⟩ ↔
      (isInsideB loc g = true ∧ g.wasInside.getD false = false) := by
  cases hIn : isInsideB loc g <;> cases hWas : g.wasInside.getD false <;>
    simp [eventFor, hIn, hWas]

lemma eventFor_eq_exit_iff (loc : LocationSample) (g : GeofenceData) :
    eventFor loc g = some ⟨g.id, .EXIT, loc.timestamp⟩ ↔
      (isInsideB loc g = false ∧ g.wasInside.getD false = true) := by
  cases hIn : isInsideB loc g <;> cases hWas : g.wasInside.getD false <;>
    simp [eventFor, hIn, hWas]

lemma isInsideB_true_of_le {loc : LocationSample} {g : GeofenceData}
    (h : calculateDistance loc.latitude loc.longitude g.latitude g.longitude ≤ g.radius) :
    isInsideB loc g = true := by
  simp [isInsideB, h]

lemma isInsideB_center (g : GeofenceData) (ts : String) (hg : 0 ≤ g.radius) :
    isInsideB ⟨g.latitude, g.longitude, ts⟩ g = true := by
  apply isInsideB_true_of_le
  show calculateDistance g.latitude g.longitude g.latitude g.longitude ≤ g.radius
  rw [calculateDistance_self]
  exact hg

/-! ## Lemmas: registry operations -/

lemma radiusOrDefault_some {x : ℝ} (hx : x ≠ 0) : radiusOrDefault (some x) = x := by
  simp only [radiusOrDefault]
  rw [if_neg hx]

lemma isInsideB_gWitness : isInsideB locWitness gWitness = true :=
  isInsideB_center gWitness "t1" (by norm_num [gWitness])

lemma isInsideB_makeCex : isInsideB locWitness (makeGeofenceData cexReminder "t0") = true :=
  isInsideB_center (makeGeofenceData cexReminder "t0") "t1"
    (by
      show (0:ℝ) ≤ radiusOrDefault (some 100)
      rw [radiusOrDefault_some (by norm_num)]
      norm_num)

lemma mapSet_ne_nil (l : List GeofenceData) (g : GeofenceData) : mapSet l g ≠ [] := by
  unfold mapSet
  split_ifs with h
  · cases l with
    | nil => simp at h
    | cons a l => simp
  · simp

lemma removeGeofence_state (st : ManagerState) (storage : Option (List GeofenceData))
    (rid : Nat) (ok stopOk : Bool)
    (hmem : (st.activeGeofences.any fun g => g.id == "geofence_" ++ toString rid) = true) :
    (removeGeofence st storage rid ok stopOk).state =
      ⟨st.activeGeofences.filter (fun g => !(g.id == "geofence_" ++ toString rid)),
        if (st.activeGeofences.filter
            (fun g => !(g.id == "geofence_" ++ toString rid))).isEmpty
        then stopMonitoring st.isMonitoring stopOk else st.isMonitoring⟩ := by
  simp [removeGeofence, hmem]

lemma removeGeofence_not_found (st : ManagerState) (storage : Option (List GeofenceData))
    (rid : Nat) (ok stopOk : Bool)
    (hmem : ¬ (st.activeGeofences.any fun g => g.id == "geofence_" ++ toString rid) = true) :
    removeGeofence st storage rid ok stopOk = ⟨st, storage, false⟩ := by
  simp [removeGeofence, hmem]

lemma startMonitoring_true (m : Bool) : startMonitoring m true = true := by
  cases m <;> rfl

lemma stopMonitoring_true (m : Bool) : stopMonitoring m true = false := by
  cases m <;> rfl

lemma stopMonitoring_false (m : Bool) : stopMonitoring m false = m := by
  cases m <;> rfl

lemma checkGeofencesCall_methods_present (f : String → Bool) (loc : LocationSample)
    (rest : List GeofenceData) :
    ∀ done, checkGeofencesCall true true f loc done rest = .ok (checkAux f loc done rest) := by
  induction rest with
  | nil => intro done; simp [checkGeofencesCall, checkAux]
  | cons g rest ih =>
    intro done
    cases hIn : isInsideB loc g <;> cases hWas : g.wasInside.getD false <;>
      simp [checkGeofencesCall, checkAux, hIn, hWas, ih]

/-! ## Lemmas: transitions at an arbitrary registry position -/

lemma isInsideB_locFar : isInsideB locFar gSeeded = false := by
  have hd : calculateDistance locFar.latitude locFar.longitude gSeeded.latitude
      gSeeded.longitude = 6371000 * π := calculateDistance_far
  simp only [isInsideB, hd]
  rw [decide_eq_false_iff_not]
  show ¬ (6371000 * π ≤ gSeeded.radius)
  intro hle
  have hr : gSeeded.radius = (100:ℝ) := rfl
  rw [hr] at hle
  linarith [Real.pi_gt_three]

lemma updateRecord_eq_of_transition (loc : LocationSample) (g : GeofenceData)
    (t : TransitionType)
    (ht : (t = .ENTER ∧ isInsideB loc g = true ∧ g.wasInside.getD false = false)
        ∨ (t = .EXIT ∧ isInsideB loc g = false ∧ g.wasInside.getD false = true)) :
    updateRecord loc g =
      { applyTransition g t loc with
        wasInside := some (isInsideB loc g), lastChecked := some loc.timestamp } := by
  rcases ht with ⟨rfl, hIn, hWas⟩ | ⟨rfl, hIn, hWas⟩ <;>
    simp [updateRecord, hIn, hWas]

lemma checkAux_cons_transition (f : String → Bool) (loc : LocationSample)
    (done : List GeofenceData) (p : GeofenceData) (rest : List GeofenceData)
    (t : TransitionType)
    (ht : (t = .ENTER ∧ isInsideB loc p = true ∧ p.wasInside.getD false = false)
        ∨ (t = .EXIT ∧ isInsideB loc p = false ∧ p.wasInside.getD false = true)) :
    checkAux f loc done (p :: rest) =
      ⟨(checkAux f loc (updateRecord loc p :: done) rest).records,
        ⟨p.id, t, loc.timestamp⟩ :: (checkAux f loc (updateRecord loc p :: done) rest).events,
        (done.reverse ++ applyTransition p t loc :: rest) ::
          (checkAux f loc (updateRecord loc p :: done) rest).snapshots,
        (p.id, f p.id) :: (checkAux f loc (updateRecord loc p :: done) rest).notified⟩ := by
  have hupd := updateRecord_eq_of_transition loc p t ht
  rw [hupd]
  rcases ht with ⟨rfl, hIn, hWas⟩ | ⟨rfl, hIn, hWas⟩ <;>
    simp [checkAux, hIn, hWas]

lemma checkAux_cons_id (f : String → Bool) (loc : LocationSample)
    (done : List GeofenceData) (p : GeofenceData) (rest : List GeofenceData)
    (h : isInsideB loc p = p.wasInside.getD false) :
    checkAux f loc done (p :: rest) = checkAux f loc (updateRecord loc p :: done) rest := by
  cases hIn : isInsideB loc p <;> cases hWas : p.wasInside.getD false <;>
    first
      | (rw [hIn, hWas] at h; exact Bool.noConfusion h)
      | simp [checkAux, updateRecord, hIn, hWas]

lemma snapshot_mem_of_transition (f : String → Bool) (loc : LocationSample)
    (g : GeofenceData) (post : List GeofenceData) (t : TransitionType)
    (ht : (t = .ENTER ∧ isInsideB loc g = true ∧ g.wasInside.getD false = false)
        ∨ (t = .EXIT ∧ isInsideB loc g = false ∧ g.wasInside.getD false = true)) :
    ∀ (pre done : List GeofenceData),
      (done.reverse ++ pre.map (updateRecord loc) ++ applyTransition g t loc :: post) ∈
        (checkAux f loc done (pre ++ g :: post)).snapshots := by
  intro pre
  induction pre with
  | nil =>
    intro done
    rw [List.nil_append, checkAux_cons_transition f loc done g post t ht]
    simp
  | cons p pre ih =>
    intro done
    rw [List.cons_append]
    by_cases hpt : isInsideB loc p = p.wasInside.getD false
    · rw [checkAux_cons_id f loc done p (pre ++ g :: post) hpt]
      have h2 := ih (updateRecord loc p :: done)
      simpa using h2
    · cases hIn : isInsideB loc p <;> cases hWas : p.wasInside.getD false
      · exact absurd (hIn.trans hWas.symm) hpt
      · rw [checkAux_cons_transition f loc done p (pre ++ g :: post) .EXIT
          (Or.inr ⟨rfl, hIn, hWas⟩)]
        refine List.mem_cons_of_mem _ ?_
        have h2 := ih (updateRecord loc p :: done)
        simpa using h2
      · rw [checkAux_cons_transition f loc done p (pre ++ g :: post) .ENTER
          (Or.inl ⟨rfl, hIn, hWas⟩)]
        refine List.mem_cons_of_mem _ ?_
        have h2 := ih (updateRecord loc p :: done)
        simpa using h2
      · exact absurd (hIn.trans hWas.symm) hpt

/-! ## Claim theorems -/

/-- C1: for every location sample evaluated against the registry and for every
record in it, an ENTER event is emitted iff the sample is inside the geofence
and wasInside was false, an EXIT event is emitted iff the sample is outside
and wasInside was true, no event otherwise; after the evaluation every
evaluated record carries wasInside equal to the freshly computed containment
result, and both the updated records and the events are independent of the
notification delivery outcome. -/
theorem georem_C1 (f fAlt : String → Bool) (records : List GeofenceData)
    (loc : LocationSample) (hnd : (records.map GeofenceData.id).Nodup) :
    (checkGeofences f records loc).records = records.map (updateRecord loc)
    ∧ (∀ g ∈ records,
        (((⟨g.id, .ENTER, loc.timestamp⟩ : TransitionEvent) ∈
            (checkGeofences f records loc).events) ↔
          (isInsideB loc g = true ∧ g.wasInside.getD false = false))
        ∧ (((⟨g.id, .EXIT, loc.timestamp⟩ : TransitionEvent) ∈
            (checkGeofences f records loc).events) ↔
          (isInsideB loc g = false ∧ g.wasInside.getD false = true))
        ∧ (updateRecord loc g).wasInside = some (isInsideB loc g))
    ∧ (checkGeofences f records loc).records = (checkGeofences fAlt records loc).records
    ∧ (checkGeofences f records loc).events = (checkGeofences fAlt records loc).events := by
  refine ⟨checkGeofences_records f records loc, ?_, ?_, ?_⟩
  · intro g hg
    refine ⟨?_, ?_, updateRecord_wasInside loc g⟩
    · rw [checkGeofences_events, mem_events_iff loc hnd hg, eventFor_eq_enter_iff]
    · rw [checkGeofences_events, mem_events_iff loc hnd hg, eventFor_eq_exit_iff]
  · rw [checkGeofences_records, checkGeofences_records]
  · rw [checkGeofences_events, checkGeofences_events]

/-- Witness for C1 at a concrete one-record registry. -/
theorem georem_C1_witness :
    (([gWitness].map GeofenceData.id).Nodup)
    ∧ ((checkGeofences (fun _ => true) [gWitness] locWitness).records =
        [gWitness].map (updateRecord locWitness)
      ∧ (∀ g ∈ [gWitness],
          (((⟨g.id, .ENTER, locWitness.timestamp⟩ : TransitionEvent) ∈
              (checkGeofences (fun _ => true) [gWitness] locWitness).events) ↔
            (isInsideB locWitness g = true ∧ g.wasInside.getD false = false))
          ∧ (((⟨g.id, .EXIT, locWitness.timestamp⟩ : TransitionEvent) ∈
              (checkGeofences (fun _ => true) [gWitness] locWitness).events) ↔
            (isInsideB locWitness g = false ∧ g.wasInside.getD false = true))
          ∧ (updateRecord locWitness g).wasInside = some (isInsideB locWitness g))
      ∧ (checkGeofences (fun _ => true) [gWitness] locWitness).records =
          (checkGeofences (fun _ => false) [gWitness] locWitness).records
      ∧ (checkGeofences (fun _ => true) [gWitness] locWitness).events =
          (checkGeofences (fun _ => false) [gWitness] locWitness).events) :=
  ⟨by simp, georem_C1 (fun _ => true) (fun _ => false) [gWitness] locWitness (by simp)⟩

/-- C4: re-evaluating the identical sample against the registry state produced
by a first evaluation emits no events on the second pass. -/
theorem georem_C4 (f fAlt : String → Bool) (records : List GeofenceData)
    (loc : LocationSample) :
    (checkGeofences fAlt (checkGeofences f records loc).records loc).events = [] := by
  rw [checkGeofences_events, checkGeofences_records, List.filterMap_map]
  have hnone : (eventFor loc ∘ updateRecord loc) = fun _ => none := by
    funext g
    exact eventFor_updateRecord loc g
  rw [hnone]
  simp

/-- C5: the containment test of the detector holds iff the computed distance
is at most the radius; a sample at exactly distance equal to the radius is
classified as inside. -/
theorem georem_C5 (loc : LocationSample) (g : GeofenceData) :
    (isInsideB loc g = true ↔
      calculateDistance loc.latitude loc.longitude g.latitude g.longitude ≤ g.radius)
    ∧ (calculateDistance loc.latitude loc.longitude g.latitude g.longitude = g.radius →
      isInsideB loc g = true) := by
  constructor
  · simp [isInsideB]
  · intro h
    simp [isInsideB, h.le]

/-- Witness for C5: a sample at exactly the boundary distance is inside. -/
theorem georem_C5_witness :
    calculateDistance locWitness.latitude locWitness.longitude gBoundary.latitude
      gBoundary.longitude = gBoundary.radius
    ∧ isInsideB locWitness gBoundary = true :=
  have h : calculateDistance locWitness.latitude locWitness.longitude gBoundary.latitude
      gBoundary.longitude = gBoundary.radius := calculateDistance_self 0 0
  ⟨h, (georem_C5 locWitness gBoundary).2 h⟩

/-- C6: calculateDistance is exactly the haversine form 2·R·atan2(√a, √(1−a))
written in the specification, it is nonnegative for all inputs, and for valid
latitudes the intermediate value a stays in [0, 1], so both square roots
receive nonnegative arguments (the real-number counterpart of NaN freedom at
antipodal points, poles and the longitude seam). -/
theorem georem_C6 (lat1 lon1 lat2 lon2 : ℝ) :
    calculateDistance lat1 lon1 lat2 lon2 = haversineSpecForm lat1 lon1 lat2 lon2
    ∧ 0 ≤ calculateDistance lat1 lon1 lat2 lon2
    ∧ (|lat1| ≤ 90 → |lat2| ≤ 90 →
        0 ≤ haversineA lat1 lon1 lat2 lon2 ∧ haversineA lat1 lon1 lat2 lon2 ≤ 1) := by
  refine ⟨?_, calculateDistance_nonneg lat1 lon1 lat2 lon2,
    fun h1 h2 => ⟨haversineA_nonneg lon1 lon2 h1 h2, haversineA_le_one lon1 lon2 h1 h2⟩⟩
  unfold calculateDistance haversineSpecForm
  ring

/-- Witness for C6 at the antipodal pole pair. -/
theorem georem_C6_witness :
    |(90:ℝ)| ≤ 90 ∧ |(-90:ℝ)| ≤ 90
    ∧ (0 ≤ haversineA 90 0 (-90) 0 ∧ haversineA 90 0 (-90) 0 ≤ 1) :=
  ⟨by norm_num, by norm_num,
    (georem_C6 90 0 (-90) 0).2.2 (by norm_num) (by norm_num)⟩

/-- Counterexample to C2: addGeofence does not seed wasInside with a
containment check (the created record has wasInside undefined), so the first
sample after creation, lying inside the radius, does emit an ENTER event. -/
theorem georem_C2_counterexample :
    (makeGeofenceData cexReminder "t0").wasInside = none
    ∧ (checkGeofences (fun _ => true)
        (addGeofence ⟨[], false⟩ none cexReminder "t0" true true).state.activeGeofences
        locWitness).events =
      [⟨"geofence_1", .ENTER, "t1"⟩] := by
  refine ⟨rfl, ?_⟩
  have hst : (addGeofence ⟨[], false⟩ none cexReminder "t0" true
      true).state.activeGeofences = [makeGeofenceData cexReminder "t0"] := by
    simp [addGeofence, mapSet]
  have hid : (makeGeofenceData cexReminder "t0").id = "geofence_1" := rfl
  have hWas : (makeGeofenceData cexReminder "t0").wasInside.getD false = false := rfl
  have hts : locWitness.timestamp = "t1" := rfl
  rw [hst, checkGeofences_events]
  simp [eventFor, isInsideB_makeCex, hWas, hid, hts]

/-- C2 amended: creation stores the record with wasInside left undefined (no
containment check is performed and no event is emitted at creation), and the
evaluation of the first sample treats the missing wasInside as false, so a
first sample inside the radius does emit an ENTER event; only after that first
evaluation does wasInside track containment. -/
theorem georem_C2_amended (f : String → Bool) (storage : Option (List GeofenceData))
    (r : Reminder) (now : String) (ok startOk m : Bool) (loc : LocationSample)
    (hin : isInsideB loc (makeGeofenceData r now) = true) :
    (makeGeofenceData r now).wasInside = none
    ∧ (addGeofence ⟨[], m⟩ storage r now ok startOk).state.activeGeofences =
        [makeGeofenceData r now]
    ∧ (checkGeofences f [makeGeofenceData r now] loc).events =
        [⟨"geofence_" ++ toString r.id, .ENTER, loc.timestamp⟩] := by
  refine ⟨rfl, by simp [addGeofence, mapSet], ?_⟩
  have hWas : (makeGeofenceData r now).wasInside.getD false = false := rfl
  have hid : (makeGeofenceData r now).id = "geofence_" ++ toString r.id := rfl
  rw [checkGeofences_events]
  simp [eventFor, hin, hWas, hid]

/-- Witness for C2 amended at a concrete reminder and its own center. -/
theorem georem_C2_amended_witness :
    isInsideB locWitness (makeGeofenceData cexReminder "t0") = true
    ∧ ((makeGeofenceData cexReminder "t0").wasInside = none
      ∧ (addGeofence ⟨[], false⟩ none cexReminder "t0" true true).state.activeGeofences =
          [makeGeofenceData cexReminder "t0"]
      ∧ (checkGeofences (fun _ => true) [makeGeofenceData cexReminder "t0"]
          locWitness).events =
        [⟨"geofence_" ++ toString cexReminder.id, .ENTER, locWitness.timestamp⟩]) :=
  ⟨isInsideB_makeCex,
    georem_C2_amended (fun _ => true) none cexReminder "t0" true true false locWitness
      isInsideB_makeCex⟩

/-- Counterexample to C3: for a transition detected on a record, the snapshot
persisted by the transition handler still carries the pre-transition wasInside
(here some false), while the in-memory record ends the evaluation with the
fresh value (some true); the persisted record does not reflect the new
wasInside value. -/
theorem georem_C3_counterexample :
    (checkGeofences (fun _ => true) [gWitness] locWitness).snapshots =
      [[applyTransition gWitness .ENTER locWitness]]
    ∧ (applyTransition gWitness .ENTER locWitness).wasInside = some false
    ∧ (checkGeofences (fun _ => true) [gWitness] locWitness).records =
      [{ applyTransition gWitness .ENTER locWitness with
          wasInside := some true, lastChecked := some "t1" }] := by
  have hIn := isInsideB_gWitness
  have hWas : gWitness.wasInside.getD false = false := rfl
  have hts : locWitness.timestamp = "t1" := rfl
  refine ⟨?_, rfl, ?_⟩
  · simp [checkGeofences, checkAux, hIn, hWas]
  · simp [checkGeofences, checkAux, hIn, hWas, hts]

/-- C3 amended: on every confirmed transition (ENTER or EXIT, at any position
in the registry) the handler increments triggeredCount by exactly one, sets
lastTriggered and lastTransitionType, and persists a snapshot taken before
wasInside is written back, so the persisted record still carries the
pre-transition wasInside; the in-memory record is then updated with the fresh
containment value, and triggeredCount never decreases across evaluations. -/
theorem georem_C3_amended (f : String → Bool) (pre post : List GeofenceData)
    (g : GeofenceData) (loc : LocationSample) (t : TransitionType)
    (ht : (t = .ENTER ∧ isInsideB loc g = true ∧ g.wasInside.getD false = false)
        ∨ (t = .EXIT ∧ isInsideB loc g = false ∧ g.wasInside.getD false = true)) :
    (applyTransition g t loc).triggeredCount = g.triggeredCount + 1
    ∧ (applyTransition g t loc).lastTriggered = some loc.timestamp
    ∧ (applyTransition g t loc).lastTransitionType = some t
    ∧ (applyTransition g t loc).wasInside = g.wasInside
    ∧ (pre.map (updateRecord loc) ++ applyTransition g t loc :: post) ∈
        (checkGeofences f (pre ++ g :: post) loc).snapshots
    ∧ (⟨g.id, t, loc.timestamp⟩ : TransitionEvent) ∈
        (checkGeofences f (pre ++ g :: post) loc).events
    ∧ (checkGeofences f (pre ++ g :: post) loc).records =
        pre.map (updateRecord loc) ++
          { applyTransition g t loc with
            wasInside := some (isInsideB loc g),
            lastChecked := some loc.timestamp } :: post.map (updateRecord loc)
    ∧ (∀ recs loc', List.Forall₂ (fun a b => a.triggeredCount ≤ b.triggeredCount)
        recs (checkGeofences f recs loc').records) := by
  refine ⟨rfl, rfl, rfl, rfl, ?_, ?_, ?_, ?_⟩
  · have h := snapshot_mem_of_transition f loc g post t ht pre []
    simpa [checkGeofences] using h
  · rw [checkGeofences_events]
    refine List.mem_filterMap.mpr ⟨g, List.mem_append_right pre (List.mem_cons_self g post), ?_⟩
    rcases ht with ⟨rfl, hIn, hWas⟩ | ⟨rfl, hIn, hWas⟩
    · exact (eventFor_eq_enter_iff loc g).mpr ⟨hIn, hWas⟩
    · exact (eventFor_eq_exit_iff loc g).mpr ⟨hIn, hWas⟩
  · rw [checkGeofences_records, List.map_append, List.map_cons,
      updateRecord_eq_of_transition loc g t ht]
  · intro recs loc'
    rw [checkGeofences_records]
    induction recs with
    | nil => exact List.Forall₂.nil
    | cons a l ih => exact List.Forall₂.cons (updateRecord_triggeredCount loc' a) ih

/-- Witness for C3 amended: an EXIT transition on a record tracked as inside,
evaluated against the antipodal sample. -/
theorem georem_C3_amended_witness :
    (TransitionType.EXIT = .ENTER ∧ isInsideB locFar gSeeded = true
        ∧ gSeeded.wasInside.getD false = false
      ∨ TransitionType.EXIT = .EXIT ∧ isInsideB locFar gSeeded = false
        ∧ gSeeded.wasInside.getD false = true)
    ∧ ((applyTransition gSeeded .EXIT locFar).triggeredCount = gSeeded.triggeredCount + 1
      ∧ (applyTransition gSeeded .EXIT locFar).lastTriggered = some locFar.timestamp
      ∧ (applyTransition gSeeded .EXIT locFar).lastTransitionType = some .EXIT
      ∧ (applyTransition gSeeded .EXIT locFar).wasInside = gSeeded.wasInside
      ∧ (([] : List GeofenceData).map (updateRecord locFar) ++
          applyTransition gSeeded .EXIT locFar :: ([] : List GeofenceData)) ∈
            (checkGeofences (fun _ => true)
              (([] : List GeofenceData) ++ gSeeded :: ([] : List GeofenceData)) locFar).snapshots
      ∧ (⟨gSeeded.id, .EXIT, locFar.timestamp⟩ : TransitionEvent) ∈
          (checkGeofences (fun _ => true)
            (([] : List GeofenceData) ++ gSeeded :: ([] : List GeofenceData)) locFar).events
      ∧ (checkGeofences (fun _ => true)
          (([] : List GeofenceData) ++ gSeeded :: ([] : List GeofenceData)) locFar).records =
          ([] : List GeofenceData).map (updateRecord locFar) ++
            { applyTransition gSeeded .EXIT locFar with
              wasInside := some (isInsideB locFar gSeeded),
              lastChecked := some locFar.timestamp } ::
              ([] : List GeofenceData).map (updateRecord locFar)
      ∧ (∀ recs loc', List.Forall₂ (fun a b => a.triggeredCount ≤ b.triggeredCount)
          recs (checkGeofences (fun _ => true) recs loc').records)) :=
  ⟨Or.inr ⟨rfl, isInsideB_locFar, rfl⟩,
    georem_C3_amended (fun _ => true) [] [] gSeeded locFar .EXIT
      (Or.inr ⟨rfl, isInsideB_locFar, rfl⟩)⟩

/-- Counterexample to C7: when the platform location calls inside
startMonitoring throw, its catch resets isMonitoring to false, so adding a
geofence to an empty registry leaves a non-empty registry with monitoring off;
and when the platform teardown inside stopMonitoring throws, its catch leaves
isMonitoring true, so removing the last geofence leaves monitoring on with an
empty registry. The monitoring-iff-non-empty equivalence is not preserved by
every add/remove. -/
theorem georem_C7_counterexample :
    (addGeofence ⟨[], false⟩ none cexReminder "t0" true false).state.activeGeofences ≠ []
    ∧ (addGeofence ⟨[], false⟩ none cexReminder "t0" true false).state.isMonitoring = false
    ∧ (removeGeofence ⟨[gWitness], true⟩ none 7 true false).state.activeGeofences = []
    ∧ (removeGeofence ⟨[gWitness], true⟩ none 7 true false).state.isMonitoring = true := by
  have hid7 : ("geofence_" ++ toString 7 : String) = "geofence_7" := rfl
  refine ⟨mapSet_ne_nil [] (makeGeofenceData cexReminder "t0"), rfl, ?_, ?_⟩ <;>
    simp [removeGeofence, stopMonitoring, hid7, gWitness]

/-- C7 amended: provided the platform location calls inside startMonitoring
and stopMonitoring succeed, monitoring runs iff the registry is non-empty:
adding to an empty registry starts monitoring, the equivalence is preserved by
every add and remove, removing a geofence while others remain leaves
monitoring running, and removing the last geofence stops it. When the platform
start fails, its caught error leaves monitoring off despite the non-empty
registry; when the platform stop fails, the caught error leaves the
isMonitoring flag unchanged, so removing the last geofence leaves monitoring
on. -/
theorem georem_C7_amended (st : ManagerState) (storage : Option (List GeofenceData))
    (r : Reminder) (now : String) (ok : Bool) (rid : Nat)
    (hinv : st.isMonitoring = true ↔ st.activeGeofences ≠ []) :
    (addGeofence st storage r now ok true).state.isMonitoring = true
    ∧ (addGeofence st storage r now ok true).state.activeGeofences ≠ []
    ∧ ((addGeofence st storage r now ok true).state.isMonitoring = true ↔
        (addGeofence st storage r now ok true).state.activeGeofences ≠ [])
    ∧ ((removeGeofence st storage rid ok true).state.isMonitoring = true ↔
        (removeGeofence st storage rid ok true).state.activeGeofences ≠ [])
    ∧ ((removeGeofence st storage rid ok true).state.activeGeofences ≠ [] →
        (removeGeofence st storage rid ok true).state.isMonitoring = true)
    ∧ ((removeGeofence st storage rid ok true).state.activeGeofences = [] →
        (removeGeofence st storage rid ok true).state.isMonitoring = false)
    ∧ (st.isMonitoring = false →
        (addGeofence st storage r now ok false).state.isMonitoring = false
        ∧ (addGeofence st storage r now ok false).state.activeGeofences ≠ [])
    ∧ (removeGeofence st storage rid ok false).state.isMonitoring = st.isMonitoring := by
  have hmon : (addGeofence st storage r now ok true).state.isMonitoring = true := by
    show (if st.isMonitoring then st.isMonitoring
      else startMonitoring st.isMonitoring true) = true
    cases hm : st.isMonitoring <;> simp [startMonitoring_true]
  have hne : (addGeofence st storage r now ok true).state.activeGeofences ≠ [] :=
    mapSet_ne_nil st.activeGeofences (makeGeofenceData r now)
  have hrem : ((removeGeofence st storage rid ok true).state.isMonitoring = true ↔
      (removeGeofence st storage rid ok true).state.activeGeofences ≠ []) := by
    by_cases hmem : (st.activeGeofences.any fun g => g.id == "geofence_" ++ toString rid) = true
    · obtain ⟨x, hx, -⟩ := List.any_eq_true.mp hmem
      have hmon0 : st.isMonitoring = true := hinv.mpr (List.ne_nil_of_mem hx)
      rw [removeGeofence_state st storage rid ok true hmem]
      generalize st.activeGeofences.filter
        (fun g => !(g.id == "geofence_" ++ toString rid)) = fl
      cases fl with
      | nil => simp [stopMonitoring_true]
      | cons a as => simp [hmon0]
    · rw [removeGeofence_not_found st storage rid ok true hmem]
      exact hinv
  have hstartFail : st.isMonitoring = false →
      (addGeofence st storage r now ok false).state.isMonitoring = false
      ∧ (addGeofence st storage r now ok false).state.activeGeofences ≠ [] := by
    intro hm
    refine ⟨?_, mapSet_ne_nil st.activeGeofences (makeGeofenceData r now)⟩
    show (if st.isMonitoring then st.isMonitoring
      else startMonitoring st.isMonitoring false) = false
    rw [hm]
    simp [startMonitoring]
  have hstopFail : (removeGeofence st storage rid ok false).state.isMonitoring =
      st.isMonitoring := by
    by_cases hmem : (st.activeGeofences.any fun g => g.id == "geofence_" ++ toString rid) = true
    · rw [removeGeofence_state st storage rid ok false hmem]
      cases hE : (st.activeGeofences.filter
          (fun g => !(g.id == "geofence_" ++ toString rid))).isEmpty <;>
        simp [hE, stopMonitoring_false]
    · rw [removeGeofence_not_found st storage rid ok false hmem]
  exact ⟨hmon, hne, by rw [hmon]; simpa using hne, hrem, fun h => hrem.mpr h,
    fun h => by
      cases hm : (removeGeofence st storage rid ok true).state.isMonitoring
      · rfl
      · exact absurd h (hrem.mp hm),
    hstartFail, hstopFail⟩

/-- Witness for C7 amended at a concrete one-record monitoring state. -/
theorem georem_C7_amended_witness :
    (ManagerState.isMonitoring ⟨[gWitness], true⟩ = true ↔
      ManagerState.activeGeofences ⟨[gWitness], true⟩ ≠ [])
    ∧ ((addGeofence ⟨[gWitness], true⟩ none cexReminder "t0" true
          true).state.isMonitoring = true
      ∧ (addGeofence ⟨[gWitness], true⟩ none cexReminder "t0" true
          true).state.activeGeofences ≠ []
      ∧ ((addGeofence ⟨[gWitness], true⟩ none cexReminder "t0" true
            true).state.isMonitoring = true ↔
          (addGeofence ⟨[gWitness], true⟩ none cexReminder "t0" true
            true).state.activeGeofences ≠ [])
      ∧ ((removeGeofence ⟨[gWitness], true⟩ none 7 true true).state.isMonitoring = true ↔
          (removeGeofence ⟨[gWitness], true⟩ none 7 true true).state.activeGeofences ≠ [])
      ∧ ((removeGeofence ⟨[gWitness], true⟩ none 7 true true).state.activeGeofences ≠ [] →
          (removeGeofence ⟨[gWitness], true⟩ none 7 true true).state.isMonitoring = true)
      ∧ ((removeGeofence ⟨[gWitness], true⟩ none 7 true true).state.activeGeofences = [] →
          (removeGeofence ⟨[gWitness], true⟩ none 7 true true).state.isMonitoring = false)
      ∧ (ManagerState.isMonitoring ⟨[gWitness], true⟩ = false →
          (addGeofence ⟨[gWitness], true⟩ none cexReminder "t0" true
            false).state.isMonitoring = false
          ∧ (addGeofence ⟨[gWitness], true⟩ none cexReminder "t0" true
            false).state.activeGeofences ≠ [])
      ∧ (removeGeofence ⟨[gWitness], true⟩ none 7 true false).state.isMonitoring =
          ManagerState.isMonitoring ⟨[gWitness], true⟩) :=
  ⟨by simp, georem_C7_amended ⟨[gWitness], true⟩ none cexReminder "t0" true 7 (by simp)⟩

/-- Counterexample to C8: with the persistence write failing, addGeofence
still returns the created record as a success to its caller (the failure is
swallowed inside saveGeofencesToStorage), while the stored value is left
unchanged and the in-memory registry contains the new record. -/
theorem georem_C8_counterexample :
    (addGeofence ⟨[], false⟩ none cexReminder "t0" false true).returned =
      Except.ok (makeGeofenceData cexReminder "t0")
    ∧ (addGeofence ⟨[], false⟩ none cexReminder "t0" false true).storage = none
    ∧ (addGeofence ⟨[], false⟩ none cexReminder "t0" false true).state.activeGeofences =
      [makeGeofenceData cexReminder "t0"] := by
  refine ⟨rfl, ?_, ?_⟩ <;> simp [addGeofence, mapSet, saveGeofencesToStorage]

/-- C8 amended: when the persistence write fails, the in-memory update is
still applied and the stored value is left unchanged, but the failure is
caught and logged inside saveGeofencesToStorage, so addGeofence still returns
the created record and removeGeofence still returns true. -/
theorem georem_C8_amended (st : ManagerState) (storage : Option (List GeofenceData))
    (r : Reminder) (now : String) (rid : Nat) (startOk stopOk : Bool)
    (hmem : (st.activeGeofences.any fun g => g.id == "geofence_" ++ toString rid) = true) :
    (addGeofence st storage r now false startOk).state.activeGeofences =
        mapSet st.activeGeofences (makeGeofenceData r now)
    ∧ (addGeofence st storage r now false startOk).storage = storage
    ∧ (addGeofence st storage r now false startOk).returned =
        Except.ok (makeGeofenceData r now)
    ∧ (removeGeofence st storage rid false stopOk).returned = true
    ∧ (removeGeofence st storage rid false stopOk).storage = storage
    ∧ (removeGeofence st storage rid false stopOk).state.activeGeofences =
        st.activeGeofences.filter (fun g => !(g.id == "geofence_" ++ toString rid)) := by
  refine ⟨rfl, by simp [addGeofence, saveGeofencesToStorage], rfl, ?_, ?_, ?_⟩ <;>
    simp [removeGeofence, saveGeofencesToStorage, hmem]

/-- Witness for C8 amended at a concrete one-record registry. -/
theorem georem_C8_amended_witness :
    (ManagerState.activeGeofences ⟨[gWitness], true⟩).any
        (fun g => g.id == "geofence_" ++ toString 7) = true
    ∧ ((addGeofence ⟨[gWitness], true⟩ none cexReminder "t0" false
          true).state.activeGeofences =
        mapSet (ManagerState.activeGeofences ⟨[gWitness], true⟩)
          (makeGeofenceData cexReminder "t0")
      ∧ (addGeofence ⟨[gWitness], true⟩ none cexReminder "t0" false true).storage = none
      ∧ (addGeofence ⟨[gWitness], true⟩ none cexReminder "t0" false true).returned =
          Except.ok (makeGeofenceData cexReminder "t0")
      ∧ (removeGeofence ⟨[gWitness], true⟩ none 7 false true).returned = true
      ∧ (removeGeofence ⟨[gWitness], true⟩ none 7 false true).storage = none
      ∧ (removeGeofence ⟨[gWitness], true⟩ none 7 false true).state.activeGeofences =
          (ManagerState.activeGeofences ⟨[gWitness], true⟩).filter
            (fun g => !(g.id == "geofence_" ++ toString 7))) :=
  have hid7 : ("geofence_" ++ toString 7 : String) = "geofence_7" := rfl
  ⟨by simp [gWitness, hid7], georem_C8_amended ⟨[gWitness], true⟩ none cexReminder "t0" 7
    true true (by simp [gWitness, hid7])⟩

/-- Counterexample to C9: a requested radius of 5000 m is stored unchanged by
addGeofence and is also returned unchanged by the setup utility clamp, even
though it exceeds the configured maxRadius of 1000, so a stored record's
radius can lie outside [minRadius, maxRadius]. -/
theorem georem_C9_counterexample :
    ((addGeofence ⟨[], false⟩ none bigReminder "t0" true true).state.activeGeofences.map
        (fun g => g.radius)) = [5000]
    ∧ ¬ ((5000:ℝ) ≤ GEOFENCE_CONFIG_maxRadius)
    ∧ setupGeofenceRadius 5000 = 5000 := by
  refine ⟨?_, ?_, ?_⟩
  · have hrad : (makeGeofenceData bigReminder "t0").radius = 5000 := by
      show radiusOrDefault (some 5000) = 5000
      rw [radiusOrDefault_some (by norm_num)]
    simp [addGeofence, mapSet, hrad]
  · norm_num [GEOFENCE_CONFIG_maxRadius]
  · unfold setupGeofenceRadius GEOFENCE_CONFIG_minRadius
    norm_num

/-- C9 amended: addGeofence stores the requested radius unchanged (100 only
when the radius is absent or zero); the setup utility clamps only from below
to minRadius, so every radius it registers is at least minRadius but a request
above maxRadius is kept above maxRadius rather than clamped or rejected. -/
theorem georem_C9_amended (r : Reminder) (now : String) (x : ℝ)
    (hx : GEOFENCE_CONFIG_maxRadius < x) :
    (makeGeofenceData r now).radius = radiusOrDefault r.radius
    ∧ setupGeofenceRadius x = max x GEOFENCE_CONFIG_minRadius
    ∧ GEOFENCE_CONFIG_minRadius ≤ setupGeofenceRadius x
    ∧ GEOFENCE_CONFIG_maxRadius < setupGeofenceRadius x :=
  ⟨rfl, rfl, le_max_right x GEOFENCE_CONFIG_minRadius,
    lt_of_lt_of_le hx (le_max_left x GEOFENCE_CONFIG_minRadius)⟩

/-- Witness for C9 amended at a request of 5000 m. -/
theorem georem_C9_amended_witness :
    GEOFENCE_CONFIG_maxRadius < (5000:ℝ)
    ∧ ((makeGeofenceData bigReminder "t0").radius = radiusOrDefault bigReminder.radius
      ∧ setupGeofenceRadius 5000 = max 5000 GEOFENCE_CONFIG_minRadius
      ∧ GEOFENCE_CONFIG_minRadius ≤ setupGeofenceRadius 5000
      ∧ GEOFENCE_CONFIG_maxRadius < setupGeofenceRadius 5000) :=
  ⟨by norm_num [GEOFENCE_CONFIG_maxRadius],
    georem_C9_amended bigReminder "t0" 5000 (by norm_num [GEOFENCE_CONFIG_maxRadius])⟩

/-- C10: for every non-empty stored geofence set, both background evaluation
paths call checkGeofences with the plain-object receiver lacking the class
methods, so the evaluation raises a TypeError at this.calculateDistance on the
first geofence, the surrounding catch swallows it, and no transition event,
no storage write and no notification is produced on the background path. -/
theorem georem_C10 (stored : List GeofenceData) (f : String → Bool)
    (loc : LocationSample) (h : stored ≠ []) :
    checkGeofencesCall false false f loc [] stored =
      .error (.typeError "this.calculateDistance is not a function")
    ∧ handleBackgroundLocationUpdate (some stored) f loc =
      ⟨[], [], [], some (.typeError "this.calculateDistance is not a function")⟩
    ∧ performBackgroundGeofenceCheck (some stored) f loc =
      ⟨[], [], [], some (.typeError "this.calculateDistance is not a function")⟩ := by
  rcases stored with _ | ⟨g, rest⟩
  · exact absurd rfl h
  · refine ⟨?_, ?_, ?_⟩ <;>
      simp [checkGeofencesCall, handleBackgroundLocationUpdate,
        performBackgroundGeofenceCheck]

/-- Witness for C10 at a concrete non-empty stored set. -/
theorem georem_C10_witness :
    ([gWitness] : List GeofenceData) ≠ []
    ∧ (checkGeofencesCall false false (fun _ => true) locWitness [] [gWitness] =
        .error (.typeError "this.calculateDistance is not a function")
      ∧ handleBackgroundLocationUpdate (some [gWitness]) (fun _ => true) locWitness =
        ⟨[], [], [], some (.typeError "this.calculateDistance is not a function")⟩
      ∧ performBackgroundGeofenceCheck (some [gWitness]) (fun _ => true) locWitness =
        ⟨[], [], [], some (.typeError "this.calculateDistance is not a function")⟩) :=
  ⟨by simp, georem_C10 [gWitness] (fun _ => true) locWitness (by simp)⟩

end

end Georem
